import Mathlib

/-!
Verification of the core of the `seed.sde` developer-environment CLI:
the component-descriptor model (`suisei/sde/component.py`), the builder
loader (`suisei/sde/builder/builderloader.py`), the build executor
(`suisei/sde/executor/buildexecutor.py`), the unit-test executor
(`suisei/sde/executor/unittestexecutor.py`) and the component-registry
loading loop (`suisei/sde/application.py`, `_load_configuration`).

The Python code is shallowly embedded: dictionaries become structures of
`Option` fields (a missing key is `none`, and a `KeyError` is raised where
the code indexes a `none` field), exceptions become an explicit `PyErr`
error type threaded through `Except`, and the unbounded recursion of
`ComponentDescriptor.get_all_dependencies` becomes a fuel-indexed function
returning `none` when the fuel runs out (so a computation that diverges in
Python is one that returns `none` at every fuel).
-/

set_option maxRecDepth 4096

namespace SDE

/-- `os.path.expanduser`: environment-dependent path normalisation.  No claim
depends on the concrete normalisation, so paths are kept abstract and the
function is the identity on them. -/
def expanduser (s : String) : String := s

/-- `os.path.abspath`: environment-dependent path normalisation, kept abstract
(identity) exactly as `expanduser`. -/
def abspath (s : String) : String := s

/-- Python's `str.lower()`, applied character-wise (the build-type strings
are ASCII, on which this agrees with Python). -/
def pyLower (s : String) : String := ⟨s.data.map Char.toLower⟩

/-- The `BuildTypes` enumeration of `suisei/sde/builder/buildtypes.py`
(an `IntEnum` with members UNKNOWN = 0 through PIP = 14; only the tags are
relevant, the numeric values are never used by the embedded code). -/
inductive BuildTypes where
  | UNKNOWN
  | CMAKE
  | MAKE
  | PROTOBUF
  | SPHINX
  | ARTIFACTORY
  | PYTHON
  | DEB
  | DOCKER
  | MULTISTAGE
  | CONTENT
  | VERSIONBUMPER
  | BASH
  | WHEEL
  | PIP
deriving Repr, DecidableEq

/-- The builder-configuration value objects (`CMakeBuilderConfig`,
`SphinxBuilderConfig`, ...), one variant per builder-config class.
Most classes carry no fields; `SphinxBuilderConfig` carries
`target`/`source_path`/`target_path`, and `VersionBumperBuilderConfig`
requires a `target` argument (plus optional version-component overrides,
irrelevant here because the loader never manages to construct one). -/
inductive BuilderConfig where
  | cmake
  | make
  | protobuf
  | sphinx (target source_path target_path : String)
  | artifactory
  | python
  | deb
  | docker
  | multistage
  | content
  | versionbumper (target : String)
deriving Repr, DecidableEq

/-- The `BuildTypes` variant a given builder-config class belongs to. -/
def BuilderConfig.variantOf : BuilderConfig → BuildTypes
  | .cmake => .CMAKE
  | .make => .MAKE
  | .protobuf => .PROTOBUF
  | .sphinx _ _ _ => .SPHINX
  | .artifactory => .ARTIFACTORY
  | .python => .PYTHON
  | .deb => .DEB
  | .docker => .DOCKER
  | .multistage => .MULTISTAGE
  | .content => .CONTENT
  | .versionbumper _ => .VERSIONBUMPER

/-- The in-memory `ComponentDescriptor` (state after `__init__` completed):
the `_id`, `_name`, `_ut_out_dir`, `_ut_log_format`, `_ut_path`,
`_ut_verbosity`, `_build_type`, `_dependencies`, `_builder_config` and
`_linter_directory` attributes of `suisei/sde/component.py`. -/
structure ComponentDescriptor where
  id : String
  name : String
  ut_out_dir : Option String
  ut_log_format : Option String
  ut_path : Option String
  ut_verbosity : Int
  build_type : BuildTypes
  dependencies : List String
  builder_config : Option BuilderConfig
  linter_directory : String
deriving Repr, DecidableEq

/-- The `unittest` sub-dictionary of a component configuration record. -/
structure UnittestRecord where
  outdir : Option String
  logformat : Option String
  testdir : Option String
  verbosity : Option Int
deriving Repr, DecidableEq

/-- The `linter` sub-dictionary of a component configuration record. -/
structure LinterRecord where
  linterdir : Option String
deriving Repr, DecidableEq

/-- The `build` sub-dictionary of a component configuration record: the
keys read by `BuilderLoader.load` and `_load_sphinx_builder`. -/
structure BuildRecord where
  type : Option String
  target : Option String
  sourcepath : Option String
  targetpath : Option String
deriving Repr, DecidableEq

/-- A parsed component configuration record (the `descriptor` dictionary
handed to `ComponentDescriptor.__init__`); a missing key is `none`. -/
structure DescriptorRecord where
  id : Option String
  name : Option String
  unittest : Option UnittestRecord
  linter : Option LinterRecord
  build : Option BuildRecord
deriving Repr, DecidableEq

/-- The Python exceptions surfacing in the embedded code. -/
inductive PyErr where
  | keyError
  | invalidInput (msg : String)
  | typeError
  | attributeError
  | runtimeError (msg : String)
  | nameError
  | systemExit (code : Int)
deriving Repr, DecidableEq

/-- The `if build_type == ... / elif ... / else raise InvalidInputError`
dispatch inside the `try` of `BuilderLoader.load`, after the
`descriptor['build']['type'].lower()` string has been computed.  Each
`_load_x_builder` helper sets `_build_type` and then constructs the config
object; the result is the final `(_build_type, _builder_config)` pair.
`_load_sphinx_builder` reads `build.target` / `build.sourcepath` /
`build.targetpath` while building the constructor arguments, so a missing
key raises `KeyError` before `set_builder_config` runs.
`_load_versionbumper_builder` calls `VersionBumperBuilderConfig()` with no
arguments although its `target` parameter is required, so that branch
raises `TypeError`. -/
def builderFromType (b : BuildRecord) (t : String) :
    Except PyErr (BuildTypes × Option BuilderConfig) :=
  if t = "cmake" then .ok (.CMAKE, some .cmake)
  else if t = "make" then .ok (.MAKE, some .make)
  else if t = "protobuf" then .ok (.PROTOBUF, some .protobuf)
  else if t = "sphinx" then
    match b.target with
    | none => .error .keyError
    | some tgt =>
      match b.sourcepath with
      | none => .error .keyError
      | some sp =>
        match b.targetpath with
        | none => .error .keyError
        | some tp => .ok (.SPHINX, some (.sphinx tgt (abspath sp) (abspath tp)))
  else if t = "artifactory" then .ok (.ARTIFACTORY, some .artifactory)
  else if t = "python" then .ok (.PYTHON, some .python)
  else if t = "deb" then .ok (.DEB, some .deb)
  else if t = "docker" then .ok (.DOCKER, some .docker)
  else if t = "multistage" then .ok (.MULTISTAGE, some .multistage)
  else if t = "content" then .ok (.CONTENT, some .content)
  else if t = "versionbumper" then .error .typeError
  else .error (.invalidInput
    ("Invalid build type " ++ t ++ " was specified in the configuration file."))

/-- `BuilderLoader.load`: read `descriptor['build']['type']`, lowercase it
and dispatch; the surrounding `except KeyError` handler sets
`_build_type = BuildTypes.UNKNOWN` (and clears the build target) and leaves
`_builder_config` untouched, i.e. `None` — no dispatch branch sets the
config before a point where `KeyError` can still be raised, so the
handler's final state is always `(UNKNOWN, None)`.  An `InvalidInputError`
or `TypeError` escapes the handler. -/
def BuilderLoader.load (d : DescriptorRecord) :
    Except PyErr (BuildTypes × Option BuilderConfig) :=
  let attempt : Except PyErr (BuildTypes × Option BuilderConfig) :=
    match d.build with
    | none => .error .keyError
    | some b =>
      match b.type with
      | none => .error .keyError
      | some t => builderFromType b (pyLower t)
  match attempt with
  | .error .keyError => .ok (.UNKNOWN, none)
  | r => r

/-- `ComponentDescriptor._load_from_descriptor` (and hence the whole
constructor, whose `except InvalidInputError` merely logs and re-raises):
the required `id`, the defaulted `name`, the all-or-prefix `unittest`
block (the three assignments share one `try`, so the assignments before
the first missing key persist), the verbosity defaulting to 1, the linter
directory defaulting to `./`, and finally `BuilderLoader.load`.  The
`_dependencies` attribute is initialised to the empty list in `__init__`
and never populated from the record anywhere in the repository. -/
def loadFromDescriptor (r : DescriptorRecord) : Except PyErr ComponentDescriptor :=
  match r.id with
  | none => .error (.invalidInput "Component ID was not found in descriptor")
  | some i =>
    let nm : String :=
      match r.name with
      | some n => n
      | none => "UNKNOWN"
    let ut : Option String × Option String × Option String :=
      match r.unittest with
      | none => (none, none, none)
      | some u =>
        match u.outdir with
        | none => (none, none, none)
        | some od =>
          match u.logformat with
          | none => (some (expanduser od), none, none)
          | some lf =>
            match u.testdir with
            | none => (some (expanduser od), some lf, none)
            | some td => (some (expanduser od), some lf, some (abspath td))
    let verbosity : Int :=
      match r.unittest with
      | none => 1
      | some u =>
        match u.verbosity with
        | none => 1
        | some v => v
    let linterdir : String :=
      match r.linter with
      | none => "./"
      | some l =>
        match l.linterdir with
        | none => "./"
        | some ld => abspath (expanduser ld)
    match BuilderLoader.load r with
    | .error e => .error e
    | .ok (bt, cfg) =>
      .ok { id := i
            name := nm
            ut_out_dir := ut.1
            ut_log_format := ut.2.1
            ut_path := ut.2.2
            ut_verbosity := verbosity
            build_type := bt
            dependencies := []
            builder_config := cfg
            linter_directory := linterdir }

/-- The application's component registry (`SDE._components`): a dictionary
from component id to descriptor, modelled as an association list in
insertion order. -/
abbrev Registry := List (String × ComponentDescriptor)

/-- Dictionary assignment `self._components[key] = value`: overwrite an
existing key in place, otherwise append (Python dictionaries preserve
insertion order). -/
def dictInsert (m : Registry) (k : String) (v : ComponentDescriptor) : Registry :=
  if (List.lookup k m).isSome then
    m.map (fun p => if p.1 = k then (k, v) else p)
  else
    m ++ [(k, v)]

/-- The component-loading loop of `SDE._load_configuration`
(application.py, the `for file in file_list` loop): each record is fed to
the `ComponentDescriptor` constructor; on success the descriptor is stored
under its id in the local variable `desc` and in the components map; an
`InvalidInputError` is caught and handled by `del desc` — which deletes
the binding when `desc` is currently bound (so the loop just continues),
but raises `UnboundLocalError` (a `NameError`) when `desc` is unbound,
i.e. when no construction has succeeded since the last `del`; that error
is not caught and aborts the whole load.  Any other exception (e.g. the
`TypeError` of the versionbumper branch) also aborts the load.  The
`descBound` flag tracks whether the local `desc` is currently bound. -/
def loadComponentsLoop :
    List DescriptorRecord → Registry → Bool → Except PyErr Registry
  | [], comps, _ => .ok comps
  | r :: rest, comps, descBound =>
    match loadFromDescriptor r with
    | .ok d => loadComponentsLoop rest (dictInsert comps d.id d) true
    | .error (.invalidInput _) =>
      if descBound then loadComponentsLoop rest comps false
      else .error .nameError
    | .error e => .error e

/-- Component loading as started by `_load_configuration`: the local
`desc` is unbound on entry to the loop. -/
def loadComponents (records : List DescriptorRecord) : Except PyErr Registry :=
  loadComponentsLoop records [] false

/-- An element of the list built by
`ComponentDescriptor.get_all_dependencies`: the code alternates
`dep_list.append(component.ID)` (a string) with
`dep_list.append(component.get_all_dependencies())` (a whole sub-list
appended as a single nested element, not spliced). -/
inductive DepEntry where
  | id (s : String)
  | nested (l : List DepEntry)
deriving Repr

/-- The `for dependency in self._dependencies` loop body of
`get_all_dependencies`: look the dependency up in the application's
component map (`KeyError` if absent, uncaught), append its id and then
append its own recursively computed dependency list as one nested
element.  `recur` is the recursive call at one more stack depth; a `none`
anywhere (fuel exhausted, i.e. the Python recursion never returns)
makes the whole loop `none`. -/
def depLoop (reg : Registry)
    (recur : ComponentDescriptor → Option (Except PyErr (List DepEntry))) :
    List String → Option (Except PyErr (List DepEntry))
  | [] => some (.ok [])
  | d :: rest =>
    match List.lookup d reg with
    | none => some (.error .keyError)
    | some comp =>
      match recur comp with
      | none => none
      | some (.error e) => some (.error e)
      | some (.ok sub) =>
        match depLoop reg recur rest with
        | none => none
        | some (.error e) => some (.error e)
        | some (.ok tail) =>
          some (.ok (DepEntry.id comp.id :: DepEntry.nested sub :: tail))

/-- `ComponentDescriptor.get_all_dependencies`, fuel-indexed: the Python
function recurses through the registry with no cycle detection and no
depth bound, so each recursive call consumes one unit of fuel and `none`
means the computation has not returned within the given recursion depth
(it returns `none` at every fuel exactly when the Python call diverges).
An empty `_dependencies` list short-circuits to the empty list. -/
def getAllDependencies (reg : Registry) :
    Nat → ComponentDescriptor → Option (Except PyErr (List DepEntry))
  | 0, _ => none
  | fuel + 1, c =>
    if c.dependencies.isEmpty then some (.ok [])
    else depLoop reg (getAllDependencies reg fuel) c.dependencies

/-- `ComponentDescriptor.has_dependencies`: truthiness of the
`_dependencies` list. -/
def has_dependencies (c : ComponentDescriptor) : Bool :=
  !c.dependencies.isEmpty

/-- Helper for `dict.fromkeys`: hash each key in order (a `nested` entry
is a Python `list`, which is unhashable, so hashing it raises
`TypeError`), keeping the first occurrence of each string key;
the accumulator holds the kept keys in reverse. -/
def fromkeysAux : List DepEntry → List String → Except PyErr (List String)
  | [], acc => .ok acc.reverse
  | .nested _ :: _, _ => .error .typeError
  | .id s :: rest, acc =>
    fromkeysAux rest (if acc.contains s then acc else s :: acc)

/-- `list(dict.fromkeys(entries))` as used by
`BuildExecutor.build_dependencies`: deduplicate preserving first-seen
order, raising `TypeError` at the first unhashable (nested-list) key. -/
def dict_fromkeys (l : List DepEntry) : Except PyErr (List String) :=
  fromkeysAux l []

/-- What `BuildExecutor.execute_build` binds to its local `builder`
variable after the `if/elif` chain. -/
inductive BuilderObj where
  | pyNone
  | inst (bt : BuildTypes) (component : ComponentDescriptor)
  | classObj (bt : BuildTypes)
deriving Repr, DecidableEq

/-- The `if/elif` chain of `BuildExecutor.execute_build`: eight build
types construct a builder instance around the component; `MULTISTAGE` and
`CONTENT` assign the class object itself (no parentheses in the source);
every other build type leaves `builder = None`. -/
def selectBuilder (component : ComponentDescriptor) : BuilderObj :=
  if component.build_type = .CMAKE then .inst .CMAKE component
  else if component.build_type = .MAKE then .inst .MAKE component
  else if component.build_type = .PROTOBUF then .inst .PROTOBUF component
  else if component.build_type = .SPHINX then .inst .SPHINX component
  else if component.build_type = .ARTIFACTORY then .inst .ARTIFACTORY component
  else if component.build_type = .PYTHON then .inst .PYTHON component
  else if component.build_type = .DEB then .inst .DEB component
  else if component.build_type = .DOCKER then .inst .DOCKER component
  else if component.build_type = .MULTISTAGE then .classObj .MULTISTAGE
  else if component.build_type = .CONTENT then .classObj .CONTENT
  else .pyNone

/-- `BuildExecutor.execute_build`: after the dispatch, `builder.build()`
is called unconditionally.  On a `None` builder this raises
`AttributeError`; on a bare class object the unbound `build` method is
called without a `self` argument, raising `TypeError`; on an instance the
build runs and the result records which builder ran on which component. -/
def execute_build (component : ComponentDescriptor) :
    Except PyErr (BuildTypes × ComponentDescriptor) :=
  match selectBuilder component with
  | .pyNone => .error .attributeError
  | .classObj _ => .error .typeError
  | .inst bt c => .ok (bt, c)

/-- The `for dependency in dep_list` loop of
`BuildExecutor.build_dependencies`: look each id up in the component map
(`KeyError` if absent) and run `execute_build` on it, collecting the
builds performed. -/
def buildLoop (reg : Registry) :
    List String → Except PyErr (List (BuildTypes × ComponentDescriptor))
  | [] => .ok []
  | d :: rest =>
    match List.lookup d reg with
    | none => .error .keyError
    | some comp =>
      match execute_build comp with
      | .error e => .error e
      | .ok ev =>
        match buildLoop reg rest with
        | .error e => .error e
        | .ok evs => .ok (ev :: evs)

/-- `BuildExecutor.build_dependencies`:
`dep_list = list(dict.fromkeys(self._component.get_all_dependencies()))`
followed by the build loop; any exception propagates. -/
def build_dependencies (reg : Registry) (fuel : Nat) (c : ComponentDescriptor) :
    Option (Except PyErr (List (BuildTypes × ComponentDescriptor))) :=
  match getAllDependencies reg fuel c with
  | none => none
  | some (.error e) => some (.error e)
  | some (.ok entries) =>
    match dict_fromkeys entries with
    | .error e => some (.error e)
    | .ok ids => some (buildLoop reg ids)

/-- `BuildExecutor.execute`: build the dependencies first when
`has_dependencies()` is truthy, then build the target itself; the result
lists the builds performed in order. -/
def BuildExecutor.execute (reg : Registry) (fuel : Nat) (c : ComponentDescriptor) :
    Option (Except PyErr (List (BuildTypes × ComponentDescriptor))) :=
  if has_dependencies c then
    match build_dependencies reg fuel c with
    | none => none
    | some (.error e) => some (.error e)
    | some (.ok evs) =>
      match execute_build c with
      | .error e => some (.error e)
      | .ok ev => some (.ok (evs ++ [ev]))
  else
    match execute_build c with
    | .error e => some (.error e)
    | .ok ev => some (.ok [ev])

/-- A build request for a named component: `BuildExecutor.__init__` checks
`has_component` and raises
`RuntimeError('Component {} does not exist.'.format(component))` when the
id is not in the registry, before any builder can run; otherwise
`execute` runs on the found descriptor. -/
def requestBuild (reg : Registry) (fuel : Nat) (component : String) :
    Option (Except PyErr (List (BuildTypes × ComponentDescriptor))) :=
  match List.lookup component reg with
  | none =>
    some (.error (.runtimeError ("Component " ++ component ++ " does not exist.")))
  | some c => BuildExecutor.execute reg fuel c

/-- The outcome of running one test suite: the `errors` and `failures`
lists of the `unittest` result object. -/
structure TestResult where
  errors : List String
  failures : List String
deriving Repr, DecidableEq

/-- The `for component in components` loop of `UnitTestExecutor.execute`:
`_build_test_suite` returns `None` when the component is not in the map
(its `except KeyError` handler) or has no configured `testdir`
(`UnitTestLocation is None`); otherwise test discovery runs — `discover`
returns `none` when the discovered suite is empty/falsy, in which case the
`if test_suite:` guard skips the component.  A suite that runs appends the
component to the list of executed suites, and `test_success` is cleared
when the result has errors or failures. -/
def runSuites (reg : Registry) (discover : String → Option TestResult) :
    List String → List String → Bool → List String × Bool
  | [], ran, success => (ran, success)
  | comp :: rest, ran, success =>
    match List.lookup comp reg with
    | none => runSuites reg discover rest ran success
    | some d =>
      match d.ut_path with
      | none => runSuites reg discover rest ran success
      | some _ =>
        match discover comp with
        | none => runSuites reg discover rest ran success
        | some result =>
          runSuites reg discover rest (ran ++ [comp])
            (success && result.errors.isEmpty && result.failures.isEmpty)

/-- `UnitTestExecutor.execute`: a single named component or, for `'all'`,
every key of the component map; after all suites ran, a cleared
`test_success` flag raises `SystemExit(-1)`.  The result is the list of
suites that actually ran together with the raised exception, if any. -/
def UnitTestExecutor.execute (componentArg : String) (reg : Registry)
    (discover : String → Option TestResult) : List String × Option PyErr :=
  let components := if componentArg ≠ "all" then [componentArg] else reg.map Prod.fst
  let result := runSuites reg discover components [] true
  (result.1, if result.2 then none else some (.systemExit (-1)))

/-! ### Concrete fixtures used by witnesses and counterexamples -/

/-- A descriptor state with the given id, build type and dependency list
(the remaining attributes at their post-construction defaults). -/
def mkDescriptor (i : String) (bt : BuildTypes) (deps : List String) :
    ComponentDescriptor :=
  { id := i
    name := "UNKNOWN"
    ut_out_dir := none
    ut_log_format := none
    ut_path := none
    ut_verbosity := 1
    build_type := bt
    dependencies := deps
    builder_config := none
    linter_directory := "./" }

/-- A record with a valid id and no `build` section. -/
def recNoBuild : DescriptorRecord :=
  { id := some "core", name := none, unittest := none, linter := none, build := none }

/-- A record whose `build.type` is the unrecognized string `nonsense`. -/
def recNonsense : DescriptorRecord :=
  { id := some "core", name := none, unittest := none, linter := none,
    build := some { type := some "nonsense", target := none,
                    sourcepath := none, targetpath := none } }

/-- A record whose `build.type` is `sphinx` but whose required
`build.target` field is missing. -/
def recSphinxNoTarget : DescriptorRecord :=
  { id := some "docs", name := none, unittest := none, linter := none,
    build := some { type := some "sphinx", target := none,
                    sourcepath := none, targetpath := none } }

/-- A record with no `id` key. -/
def recNoId : DescriptorRecord :=
  { id := none, name := none, unittest := none, linter := none, build := none }

/-! ### C4: the `execute_build` dispatch -/

/-- C4: `BuildExecutor.execute_build` constructs a `Builder` instance
bound to the component and invokes its `build()` exactly when the
component's build type is one of CMAKE, MAKE, PROTOBUF, SPHINX,
ARTIFACTORY, PYTHON, DEB, DOCKER; for UNKNOWN, VERSIONBUMPER, BASH, WHEEL
and PIP the `builder` variable stays `None` and the final
`builder.build()` raises `AttributeError`, and for MULTISTAGE and CONTENT
the class object is bound instead of an instance and the call raises
`TypeError` — so a component with no build step fails rather than being
skipped. -/
theorem execute_build_dispatch (c : ComponentDescriptor) :
    (execute_build c = .ok (c.build_type, c) ↔
      c.build_type ∈ [BuildTypes.CMAKE, .MAKE, .PROTOBUF, .SPHINX,
                      .ARTIFACTORY, .PYTHON, .DEB, .DOCKER]) ∧
    (c.build_type ∈ [BuildTypes.UNKNOWN, .VERSIONBUMPER, .BASH, .WHEEL, .PIP] →
      execute_build c = .error .attributeError) ∧
    (c.build_type ∈ [BuildTypes.MULTISTAGE, .CONTENT] →
      execute_build c = .error .typeError) := by
  cases h : c.build_type <;> simp [execute_build, selectBuilder, h]

/-- Witness for C4: a component whose build type is UNKNOWN reaches the
`builder.build()` call with `builder = None` and fails. -/
theorem execute_build_dispatch_witness :
    execute_build (mkDescriptor "u" BuildTypes.UNKNOWN []) = .error .attributeError :=
  (execute_build_dispatch (mkDescriptor "u" BuildTypes.UNKNOWN [])).2.1 (by simp [mkDescriptor])

/-! ### C5: unrecognized build-type strings -/

/-- The dispatch of `BuilderLoader.load` on a lowercased type string that
matches none of the eleven recognized builders takes the final `else`
branch and raises `InvalidInputError`. -/
theorem builderFromType_unknown (b : BuildRecord) (t : String)
    (h : t ∉ (["cmake", "make", "protobuf", "sphinx", "artifactory", "python",
               "deb", "docker", "multistage", "content", "versionbumper"] : List String)) :
    builderFromType b t = .error (.invalidInput
      ("Invalid build type " ++ t ++ " was specified in the configuration file.")) := by
  simp only [List.mem_cons, List.not_mem_nil, or_false, not_or] at h
  obtain ⟨h1, h2, h3, h4, h5, h6, h7, h8, h9, h10, h11⟩ := h
  simp [builderFromType, h1, h2, h3, h4, h5, h6, h7, h8, h9, h10, h11]

/-- C5: for every record whose `build` section is present and whose
`build.type`, lowercased, is none of the eleven recognized builder
strings, `BuilderLoader.load` raises `InvalidInputError` instead of
completing normally. -/
theorem load_unknown_build_type_invalidInput (r : DescriptorRecord)
    (b : BuildRecord) (t : String) (hb : r.build = some b) (ht : b.type = some t)
    (h : (pyLower t) ∉ (["cmake", "make", "protobuf", "sphinx", "artifactory", "python",
                       "deb", "docker", "multistage", "content", "versionbumper"] : List String)) :
    BuilderLoader.load r = .error (.invalidInput
      ("Invalid build type " ++ (pyLower t) ++
        " was specified in the configuration file.")) := by
  simp [BuilderLoader.load, hb, ht, builderFromType_unknown b (pyLower t) h]

/-- Witness for C5: loading a record with `build.type = "nonsense"`
raises `InvalidInputError`. -/
theorem load_unknown_build_type_witness :
    BuilderLoader.load recNonsense = .error (.invalidInput
      ("Invalid build type " ++ (pyLower "nonsense") ++
        " was specified in the configuration file.")) :=
  load_unknown_build_type_invalidInput recNonsense _ "nonsense" rfl rfl (by decide)

/-! ### C6: missing build section -/

/-- C6: a record with a valid id and no `build` section constructs
successfully; the resulting descriptor keeps that id, has build type
UNKNOWN and carries no builder config. -/
theorem missing_build_section_defaults_unknown (r : DescriptorRecord) (i : String)
    (hid : r.id = some i) (hb : r.build = none) :
    ∃ d, loadFromDescriptor r = .ok d ∧ d.id = i ∧
      d.build_type = .UNKNOWN ∧ d.builder_config = none := by
  simp only [loadFromDescriptor, hid, BuilderLoader.load, hb]
  exact ⟨_, rfl, rfl, rfl, rfl⟩

/-- Witness for C6 at a concrete record with id `core` and no `build`
section. -/
theorem missing_build_section_witness :
    ∃ d, loadFromDescriptor recNoBuild = .ok d ∧ d.id = "core" ∧
      d.build_type = .UNKNOWN ∧ d.builder_config = none :=
  missing_build_section_defaults_unknown recNoBuild "core" rfl rfl

/-! ### C9: building an unregistered component -/

/-- C9: requesting a build of a component id that is not in the registry
fails in `BuildExecutor.__init__` with a `RuntimeError` naming the
missing component, before any builder can be invoked. -/
theorem build_unknown_component_fails (reg : Registry) (fuel : Nat)
    (component : String) (h : List.lookup component reg = none) :
    requestBuild reg fuel component =
      some (.error (.runtimeError ("Component " ++ component ++ " does not exist."))) := by
  simp [requestBuild, h]

/-- Witness for C9: building `demo` against an empty registry. -/
theorem build_unknown_component_witness :
    requestBuild [] 0 "demo" =
      some (.error (.runtimeError ("Component " ++ "demo" ++ " does not exist."))) :=
  build_unknown_component_fails [] 0 "demo" rfl

/-! ### C10: unit-test verbosity default -/

/-- C10: whenever construction completes on a record in which
`unittest.verbosity` is absent (the whole `unittest` section missing, or
present without a `verbosity` key), the descriptor's verbosity is 1. -/
theorem verbosity_defaults_to_one (r : DescriptorRecord) (d : ComponentDescriptor)
    (hv : r.unittest = none ∨ ∃ u, r.unittest = some u ∧ u.verbosity = none)
    (hd : loadFromDescriptor r = .ok d) : d.ut_verbosity = 1 := by
  unfold loadFromDescriptor at hd
  cases hid : r.id with
  | none => rw [hid] at hd; exact absurd hd (by simp)
  | some i =>
    rw [hid] at hd
    cases hbl : BuilderLoader.load r with
    | error e => rw [hbl] at hd; exact absurd hd (by simp)
    | ok p =>
      obtain ⟨bt, cfg⟩ := p
      rw [hbl] at hd
      simp only [Except.ok.injEq] at hd
      subst hd
      rcases hv with hu | ⟨u, hu, huv⟩
      · simp [hu]
      · simp [hu, huv]

/-- Witness for C10: the record with id `core`, no `unittest` section and
no `build` section constructs a descriptor with verbosity 1. -/
theorem verbosity_defaults_witness :
    (loadFromDescriptor recNoBuild = .ok (mkDescriptor "core" .UNKNOWN [])) ∧
      (mkDescriptor "core" .UNKNOWN []).ut_verbosity = 1 :=
  ⟨rfl, verbosity_defaults_to_one recNoBuild (mkDescriptor "core" .UNKNOWN [])
    (Or.inl rfl) rfl⟩

/-! ### C3: the builder-config / build-type invariant -/

/-- A successful dispatch outcome `(bt2, some c2)` whose config class
matches its build type satisfies the descriptor invariant. -/
theorem ok_pair_inv (bt2 : BuildTypes) (c2 : BuilderConfig) (bt : BuildTypes)
    (cfg : Option BuilderConfig) (h : bt2 = bt ∧ some c2 = cfg)
    (hv : c2.variantOf = bt2) (hne : bt2 ≠ .UNKNOWN) :
    (bt = .UNKNOWN → cfg = none) ∧ ∀ c, cfg = some c → c.variantOf = bt := by
  obtain ⟨rfl, rfl⟩ := h
  exact ⟨fun hx => absurd hx hne,
    fun c hc => by injection hc with hc; subst hc; exact hv⟩

/-- Every successful branch of the `BuilderLoader.load` dispatch produces
a config whose class matches the build type it sets, and never produces a
config for build type UNKNOWN. -/
theorem builderFromType_inv (b : BuildRecord) (t : String) (bt : BuildTypes)
    (cfg : Option BuilderConfig) (h : builderFromType b t = Except.ok (bt, cfg)) :
    (bt = .UNKNOWN → cfg = none) ∧ ∀ c, cfg = some c → c.variantOf = bt := by
  unfold builderFromType at h
  by_cases h1 : t = "cmake"
  · rw [if_pos h1] at h
    simp only [Except.ok.injEq, Prod.mk.injEq] at h
    exact ok_pair_inv _ _ bt cfg h rfl (by simp)
  rw [if_neg h1] at h
  by_cases h2 : t = "make"
  · rw [if_pos h2] at h
    simp only [Except.ok.injEq, Prod.mk.injEq] at h
    exact ok_pair_inv _ _ bt cfg h rfl (by simp)
  rw [if_neg h2] at h
  by_cases h3 : t = "protobuf"
  · rw [if_pos h3] at h
    simp only [Except.ok.injEq, Prod.mk.injEq] at h
    exact ok_pair_inv _ _ bt cfg h rfl (by simp)
  rw [if_neg h3] at h
  by_cases h4 : t = "sphinx"
  · rw [if_pos h4] at h
    cases htg : b.target with
    | none => simp only [htg] at h; exact absurd h (by simp)
    | some tgt =>
      simp only [htg] at h
      cases hsp : b.sourcepath with
      | none => simp only [hsp] at h; exact absurd h (by simp)
      | some sp =>
        simp only [hsp] at h
        cases htp : b.targetpath with
        | none => simp only [htp] at h; exact absurd h (by simp)
        | some tp =>
          simp only [htp] at h
          simp only [Except.ok.injEq, Prod.mk.injEq] at h
          exact ok_pair_inv _ _ bt cfg h rfl (by simp)
  rw [if_neg h4] at h
  by_cases h5 : t = "artifactory"
  · rw [if_pos h5] at h
    simp only [Except.ok.injEq, Prod.mk.injEq] at h
    exact ok_pair_inv _ _ bt cfg h rfl (by simp)
  rw [if_neg h5] at h
  by_cases h6 : t = "python"
  · rw [if_pos h6] at h
    simp only [Except.ok.injEq, Prod.mk.injEq] at h
    exact ok_pair_inv _ _ bt cfg h rfl (by simp)
  rw [if_neg h6] at h
  by_cases h7 : t = "deb"
  · rw [if_pos h7] at h
    simp only [Except.ok.injEq, Prod.mk.injEq] at h
    exact ok_pair_inv _ _ bt cfg h rfl (by simp)
  rw [if_neg h7] at h
  by_cases h8 : t = "docker"
  · rw [if_pos h8] at h
    simp only [Except.ok.injEq, Prod.mk.injEq] at h
    exact ok_pair_inv _ _ bt cfg h rfl (by simp)
  rw [if_neg h8] at h
  by_cases h9 : t = "multistage"
  · rw [if_pos h9] at h
    simp only [Except.ok.injEq, Prod.mk.injEq] at h
    exact ok_pair_inv _ _ bt cfg h rfl (by simp)
  rw [if_neg h9] at h
  by_cases h10 : t = "content"
  · rw [if_pos h10] at h
    simp only [Except.ok.injEq, Prod.mk.injEq] at h
    exact ok_pair_inv _ _ bt cfg h rfl (by simp)
  rw [if_neg h10] at h
  by_cases h11 : t = "versionbumper"
  · rw [if_pos h11] at h
    exact absurd h (by simp)
  rw [if_neg h11] at h
  exact absurd h (by simp)

/-- `BuilderLoader.load` only ever finishes with a matching
build-type / builder-config pair: its `except KeyError` handler yields
`(UNKNOWN, None)` and every dispatch branch satisfies
`builderFromType_inv`. -/
theorem BuilderLoader.load_inv (r : DescriptorRecord) (bt : BuildTypes)
    (cfg : Option BuilderConfig) (h : BuilderLoader.load r = .ok (bt, cfg)) :
    (bt = .UNKNOWN → cfg = none) ∧ ∀ c, cfg = some c → c.variantOf = bt := by
  unfold BuilderLoader.load at h
  cases hb : r.build with
  | none =>
    simp only [hb] at h
    simp only [Except.ok.injEq, Prod.mk.injEq] at h
    obtain ⟨h1, h2⟩ := h
    simp [← h1, ← h2]
  | some b =>
    simp only [hb] at h
    cases ht : b.type with
    | none =>
      simp only [ht] at h
      simp only [Except.ok.injEq, Prod.mk.injEq] at h
      obtain ⟨h1, h2⟩ := h
      simp [← h1, ← h2]
    | some t =>
      simp only [ht] at h
      cases hbf : builderFromType b (pyLower t) with
      | ok p =>
        obtain ⟨bt2, cfg2⟩ := p
        simp only [hbf] at h
        simp only [Except.ok.injEq, Prod.mk.injEq] at h
        obtain ⟨h1, h2⟩ := h
        subst h1; subst h2
        exact builderFromType_inv b (pyLower t) _ _ hbf
      | error e =>
        simp only [hbf] at h
        cases e
        case keyError =>
          simp only [Except.ok.injEq, Prod.mk.injEq] at h
          obtain ⟨h1, h2⟩ := h
          simp [← h1, ← h2]
        all_goals simp at h

/-- C3: whenever `ComponentDescriptor` construction completes, the
descriptor has at most one builder config (an `Option` in the model),
build type UNKNOWN implies no config is attached, and an attached config's
class matches the build type — including the case of a recognized builder
string (e.g. sphinx) with a required field missing, which lands in the
`except KeyError` handler and completes as `(UNKNOWN, None)`. -/
theorem builder_config_matches_build_type (r : DescriptorRecord)
    (d : ComponentDescriptor) (h : loadFromDescriptor r = .ok d) :
    (d.build_type = .UNKNOWN → d.builder_config = none) ∧
    ∀ cfg, d.builder_config = some cfg → cfg.variantOf = d.build_type := by
  unfold loadFromDescriptor at h
  cases hid : r.id with
  | none => rw [hid] at h; exact absurd h (by simp)
  | some i =>
    rw [hid] at h
    cases hbl : BuilderLoader.load r with
    | error e => rw [hbl] at h; exact absurd h (by simp)
    | ok p =>
      obtain ⟨bt, cfg⟩ := p
      rw [hbl] at h
      simp only [Except.ok.injEq] at h
      subst h
      exact BuilderLoader.load_inv r bt cfg hbl

/-- Witness for C3: a record declaring `build.type = "sphinx"` but missing
the required `build.target` field still constructs, with build type
UNKNOWN and no builder config. -/
theorem builder_config_matches_witness :
    loadFromDescriptor recSphinxNoTarget = .ok (mkDescriptor "docs" .UNKNOWN []) ∧
      (mkDescriptor "docs" .UNKNOWN []).builder_config = none :=
  ⟨rfl, (builder_config_matches_build_type recSphinxNoTarget
      (mkDescriptor "docs" .UNKNOWN []) rfl).1 rfl⟩

/-! ### C1: the dependency build is broken by the nested append -/

/-- Whenever `get_all_dependencies` returns on a component with a
non-empty dependency list, the returned list starts with an id followed by
a nested sub-list (`dep_list.append(component.get_all_dependencies())`
appends a whole list as one element). -/
theorem getAllDependencies_shape (reg : Registry) (fuel : Nat)
    (c : ComponentDescriptor) (entries : List DepEntry)
    (hdep : c.dependencies ≠ [])
    (h : getAllDependencies reg fuel c = some (.ok entries)) :
    ∃ s sub tail, entries = .id s :: .nested sub :: tail := by
  cases fuel with
  | zero => exact absurd h (by simp [getAllDependencies])
  | succ fuel =>
    rw [getAllDependencies] at h
    rw [if_neg (by simpa using hdep)] at h
    cases hd : c.dependencies with
    | nil => exact absurd hd hdep
    | cons d rest =>
      rw [hd] at h
      unfold depLoop at h
      cases hl : List.lookup d reg with
      | none => simp only [hl] at h; simp at h
      | some comp =>
        simp only [hl] at h
        cases hr : getAllDependencies reg fuel comp with
        | none => simp only [hr] at h; exact absurd h (by simp)
        | some res =>
          simp only [hr] at h
          cases res with
          | error e => simp at h
          | ok sub =>
            cases ht : depLoop reg (getAllDependencies reg fuel) rest with
            | none => simp only [ht] at h; exact absurd h (by simp)
            | some res2 =>
              simp only [ht] at h
              cases res2 with
              | error e => simp at h
              | ok tail =>
                simp only [Option.some.injEq, Except.ok.injEq] at h
                exact ⟨comp.id, sub, tail, h.symm⟩

/-- `dict.fromkeys` raises `TypeError` as soon as it reaches the nested
(unhashable) second element. -/
theorem dict_fromkeys_nested_typeError (s : String) (sub tail : List DepEntry) :
    dict_fromkeys (.id s :: .nested sub :: tail) = .error .typeError := by
  simp [dict_fromkeys, fromkeysAux]

/-- C1 (refuting the claimed behavior): for every component with a
non-empty dependency list whose dependency walk returns at all,
`BuildExecutor.build_dependencies` raises `TypeError` at the
`dict.fromkeys` call — the flat, first-seen-order, duplicate-free list the
claim describes is never produced and no dependency is built. -/
theorem build_dependencies_typeError_on_any_dependency (reg : Registry)
    (fuel : Nat) (c : ComponentDescriptor) (entries : List DepEntry)
    (hdep : c.dependencies ≠ [])
    (h : getAllDependencies reg fuel c = some (.ok entries)) :
    build_dependencies reg fuel c = some (.error .typeError) := by
  obtain ⟨s, sub, tail, rfl⟩ := getAllDependencies_shape reg fuel c entries hdep h
  simp [build_dependencies, h, dict_fromkeys_nested_typeError]

/-- The acyclic two-component example of the claim: `A` depends on `B`. -/
def descA : ComponentDescriptor := mkDescriptor "A" .CMAKE ["B"]

/-- The dependency `B`, itself dependency-free. -/
def descB : ComponentDescriptor := mkDescriptor "B" .CMAKE []

/-- The registry holding `A` and `B`. -/
def regAB : Registry := [("A", descA), ("B", descB)]

/-- Witness for C1: on the registry where `A` depends on `B` alone, the
walk returns the nested list `["B", []]` and `build_dependencies` raises
`TypeError` instead of building `B`. -/
theorem build_dependencies_typeError_witness :
    build_dependencies regAB 3 descA = some (.error .typeError) :=
  build_dependencies_typeError_on_any_dependency regAB 3 descA
    [.id "B", .nested []] (by simp [descA, mkDescriptor]) rfl

/-! ### C7: a record without id during registry loading -/

/-- C7 (refuting the loading-continues part): constructing from a record
with no `id` key raises `InvalidInputError` and yields no descriptor —
but during registry loading the `except InvalidInputError: del desc`
handler hits an unbound local `desc` (no earlier record in the run has
bound it), so `del desc` raises `UnboundLocalError` and loading aborts:
the remaining valid record is never loaded, instead of the offending
component being skipped and loading continuing. -/
theorem missing_id_aborts_registry_loading :
    loadFromDescriptor recNoId =
        .error (.invalidInput "Component ID was not found in descriptor") ∧
      loadComponents [recNoId, recNoBuild] = .error .nameError :=
  ⟨rfl, rfl⟩

/-! ### C8: both suites run, overall outcome nonzero -/

/-- C8: with two registered components, each with a configured
(non-empty) test suite, where the first suite reports a failure or error
and the second passes, `UnitTestExecutor.execute` over `'all'` runs both
suites and then raises `SystemExit(-1)`: the failing first suite does not
keep the second from running. -/
theorem unit_tests_run_all_and_exit_nonzero
    (a b : String) (da db : ComponentDescriptor) (pa pb : String)
    (ra rb : TestResult) (discover : String → Option TestResult)
    (hne : a ≠ b)
    (hpa : da.ut_path = some pa) (hpb : db.ut_path = some pb)
    (hda : discover a = some ra) (hdb : discover b = some rb)
    (hfail : ra.errors ≠ [] ∨ ra.failures ≠ [])
    (hpassErr : rb.errors = []) (hpassFail : rb.failures = []) :
    UnitTestExecutor.execute "all" [(a, da), (b, db)] discover =
      ([a, b], some (.systemExit (-1))) := by
  have hsf : (true && ra.errors.isEmpty && ra.failures.isEmpty) = false := by
    rcases hfail with hf | hf <;>
      simp [List.isEmpty_iff, hf]
  have hba : (b == a) = false := beq_eq_false_iff_ne.mpr (Ne.symm hne)
  have hlb : List.lookup b [(a, da), (b, db)] = some db := by
    simp [List.lookup, hba]
  have hla : List.lookup a [(a, da), (b, db)] = some da := by
    simp [List.lookup]
  unfold UnitTestExecutor.execute
  simp only [ne_eq, not_true_eq_false, if_false, List.map_cons, List.map_nil]
  unfold runSuites
  rw [hla]
  simp only [hpa, hda]
  unfold runSuites
  rw [hlb]
  simp only [hpb, hdb]
  unfold runSuites
  rw [hsf]
  simp [hpassErr, hpassFail]

/-- The first test fixture component, with a configured suite. -/
def descTestA : ComponentDescriptor :=
  { mkDescriptor "A" .UNKNOWN [] with ut_path := some "tests/A" }

/-- The second test fixture component, with a configured suite. -/
def descTestB : ComponentDescriptor :=
  { mkDescriptor "B" .UNKNOWN [] with ut_path := some "tests/B" }

/-- The test outcomes of the fixture: `A`'s suite has one failure, `B`'s
suite passes. -/
def discoverAB : String → Option TestResult := fun c =>
  if c = "A" then some { errors := [], failures := ["test_a_fails"] }
  else if c = "B" then some { errors := [], failures := [] }
  else none

/-- Witness for C8 on the two-component fixture. -/
theorem unit_tests_run_all_witness :
    UnitTestExecutor.execute "all" [("A", descTestA), ("B", descTestB)] discoverAB =
      (["A", "B"], some (.systemExit (-1))) :=
  unit_tests_run_all_and_exit_nonzero "A" "B" descTestA descTestB
    "tests/A" "tests/B" { errors := [], failures := ["test_a_fails"] }
    { errors := [], failures := [] } discoverAB (by decide) rfl rfl rfl rfl
    (Or.inr (by simp)) rfl rfl

/-! ### C2: a reachable dependency cycle makes the walk diverge -/

/-- The dependency edge relation of the registry: `x` declares `y` among
its dependencies. -/
def Dep (reg : Registry) (x y : String) : Prop :=
  ∃ c, List.lookup x reg = some c ∧ y ∈ c.dependencies

/-- A registry with no dangling dependency ids: every dependency of a
registered component is itself registered (a dangling id would instead
stop the walk with a `KeyError`). -/
def ClosedRegistry (reg : Registry) : Prop :=
  ∀ x c, List.lookup x reg = some c →
    ∀ d ∈ c.dependencies, ∃ c2, List.lookup d reg = some c2

/-- Some component on a dependency cycle is reachable from `x` along
dependency edges. -/
def CycleReachable (reg : Registry) (x : String) : Prop :=
  ∃ y, Relation.ReflTransGen (Dep reg) x y ∧ Relation.TransGen (Dep reg) y y

/-- From a component that reaches a cycle, some direct dependency also
reaches a cycle. -/
theorem CycleReachable.step (reg : Registry) (x : String)
    (c : ComponentDescriptor) (hx : List.lookup x reg = some c)
    (hcyc : CycleReachable reg x) :
    ∃ d ∈ c.dependencies, CycleReachable reg d := by
  obtain ⟨y, hxy, hyy⟩ := hcyc
  rcases Relation.ReflTransGen.cases_head hxy with heq | ⟨b, hxb, hby⟩
  · subst heq
    obtain ⟨b, hxb, hbx⟩ := Relation.TransGen.head'_iff.mp hyy
    obtain ⟨c2, hc2, hbmem⟩ := hxb
    rw [hx] at hc2
    injection hc2 with hc2
    subst hc2
    exact ⟨b, hbmem, x, hbx, hyy⟩
  · obtain ⟨c2, hc2, hbmem⟩ := hxb
    rw [hx] at hc2
    injection hc2 with hc2
    subst hc2
    exact ⟨b, hbmem, y, hby, hyy⟩

/-- In a closed registry the dependency loop never surfaces an exception:
all lookups succeed, and the recursive calls only ever yield `none`
(still running) or a value. -/
theorem depLoop_no_error (reg : Registry)
    (recur : ComponentDescriptor → Option (Except PyErr (List DepEntry)))
    (hclosed : ClosedRegistry reg)
    (hrec : ∀ comp, (∀ d ∈ comp.dependencies, ∃ c2, List.lookup d reg = some c2) →
      ∀ e, recur comp ≠ some (.error e)) :
    ∀ l, (∀ d ∈ l, ∃ c2, List.lookup d reg = some c2) →
      ∀ e, depLoop reg recur l ≠ some (.error e) := by
  intro l
  induction l with
  | nil => intro _ e h; simp [depLoop] at h
  | cons d rest ih =>
    intro hl e h
    obtain ⟨comp, hcomp⟩ := hl d (List.mem_cons_self d rest)
    unfold depLoop at h
    simp only [hcomp] at h
    cases hr : recur comp with
    | none => simp only [hr] at h; exact absurd h (by simp)
    | some res =>
      simp only [hr] at h
      cases res with
      | error e2 => exact hrec comp (hclosed d comp hcomp) e2 hr
      | ok sub =>
        cases ht : depLoop reg recur rest with
        | none => simp only [ht] at h; exact absurd h (by simp)
        | some res2 =>
          simp only [ht] at h
          cases res2 with
          | error e2 =>
            exact ih (fun d2 hd2 => hl d2 (List.mem_cons_of_mem d hd2)) e2 ht
          | ok tail => simp at h

/-- In a closed registry `get_all_dependencies` never surfaces an
exception either (at any recursion depth). -/
theorem getAllDependencies_no_error (reg : Registry)
    (hclosed : ClosedRegistry reg) :
    ∀ fuel (c : ComponentDescriptor),
      (∀ d ∈ c.dependencies, ∃ c2, List.lookup d reg = some c2) →
      ∀ e, getAllDependencies reg fuel c ≠ some (.error e) := by
  intro fuel
  induction fuel with
  | zero => intro c _ e h; simp [getAllDependencies] at h
  | succ fuel ih =>
    intro c hc e h
    rw [getAllDependencies] at h
    by_cases hd : c.dependencies.isEmpty
    · rw [if_pos hd] at h; exact absurd h (by simp)
    · rw [if_neg hd] at h
      exact depLoop_no_error reg (getAllDependencies reg fuel) hclosed
        (fun comp hcomp e2 => ih comp hcomp e2) c.dependencies hc e h

/-- If some entry of the dependency list reaches a cycle (and the
registry is closed), the dependency loop never finishes: every recursive
call before the cycle-bound one is `none` or a value, and the
cycle-bound call is `none` by the fuel induction hypothesis. -/
theorem depLoop_cycle_none (reg : Registry) (fuel : Nat)
    (hclosed : ClosedRegistry reg)
    (ihfuel : ∀ x cx, List.lookup x reg = some cx → CycleReachable reg x →
      getAllDependencies reg fuel cx = none) :
    ∀ l, (∀ d ∈ l, ∃ c2, List.lookup d reg = some c2) →
      (∃ d ∈ l, CycleReachable reg d) →
      depLoop reg (getAllDependencies reg fuel) l = none := by
  intro l
  induction l with
  | nil => intro _ hex; simp at hex
  | cons h0 rest ih =>
    intro hl hex
    obtain ⟨d, hdmem, hdcyc⟩ := hex
    obtain ⟨ch, hch⟩ := hl h0 (List.mem_cons_self h0 rest)
    unfold depLoop
    simp only [hch]
    rcases List.mem_cons.mp hdmem with heq | hdrest
    · subst heq
      rw [ihfuel d ch hch hdcyc]
    · cases hr : getAllDependencies reg fuel ch with
      | none => rfl
      | some res =>
        cases res with
        | error e =>
          exact absurd hr
            (getAllDependencies_no_error reg hclosed fuel ch
              (hclosed h0 ch hch) e)
        | ok sub =>
          rw [ih (fun d2 hd2 => hl d2 (List.mem_cons_of_mem h0 hd2))
            ⟨d, hdrest, hdcyc⟩]

/-- C2: on every closed registry, `get_all_dependencies` of a component
from which a dependency cycle is reachable returns at no recursion depth:
the Python recursion is unbounded and never terminates. -/
theorem getAllDependencies_diverges_on_cycle (reg : Registry) (x : String)
    (c : ComponentDescriptor) (hclosed : ClosedRegistry reg)
    (hx : List.lookup x reg = some c) (hcyc : CycleReachable reg x) :
    ∀ fuel, getAllDependencies reg fuel c = none := by
  have main : ∀ fuel x c, List.lookup x reg = some c → CycleReachable reg x →
      getAllDependencies reg fuel c = none := by
    intro fuel
    induction fuel with
    | zero => intro x c _ _; rfl
    | succ fuel ih =>
      intro x c hx hcyc
      obtain ⟨d, hdmem, hdcyc⟩ := CycleReachable.step reg x c hx hcyc
      have hne : ¬ c.dependencies.isEmpty := by
        cases hdeps : c.dependencies with
        | nil => rw [hdeps] at hdmem; simp at hdmem
        | cons a l => simp [hdeps]
      rw [getAllDependencies, if_neg hne]
      exact depLoop_cycle_none reg fuel hclosed (fun y cy => ih y cy)
        c.dependencies (hclosed x c hx) ⟨d, hdmem, hdcyc⟩
  intro fuel
  exact main fuel x c hx hcyc

/-- `B` of the cyclic fixture: it depends back on `A`. -/
def descCycB : ComponentDescriptor := mkDescriptor "B" .CMAKE ["A"]

/-- The cyclic registry of the claim's example: `A` depends on `B` and
`B` depends on `A`, both registered. -/
def regCyc : Registry := [("A", descA), ("B", descCycB)]

/-- The cyclic fixture registry is closed. -/
theorem regCyc_closed : ClosedRegistry regCyc := by
  intro x c hx d hd
  by_cases hA : x = "A"
  · subst hA
    rw [show List.lookup "A" regCyc = some descA from rfl] at hx
    injection hx with hx
    subst hx
    simp only [descA, mkDescriptor, List.mem_singleton] at hd
    subst hd
    exact ⟨descCycB, rfl⟩
  · by_cases hB : x = "B"
    · subst hB
      rw [show List.lookup "B" regCyc = some descCycB from rfl] at hx
      injection hx with hx
      subst hx
      simp only [descCycB, mkDescriptor, List.mem_singleton] at hd
      subst hd
      exact ⟨descA, rfl⟩
    · exfalso
      have : List.lookup x regCyc = none := by
        simp [regCyc, List.lookup, beq_eq_false_iff_ne.mpr hA,
          beq_eq_false_iff_ne.mpr hB]
      rw [this] at hx
      exact absurd hx (by simp)

/-- `A` of the cyclic fixture sits on a cycle. -/
theorem regCyc_cycle : CycleReachable regCyc "A" :=
  ⟨"A", Relation.ReflTransGen.refl,
    Relation.TransGen.head
      (show Dep regCyc "A" "B" from ⟨descA, rfl, by simp [descA, mkDescriptor]⟩)
      (Relation.TransGen.single
        (show Dep regCyc "B" "A" from
          ⟨descCycB, rfl, by simp [descCycB, mkDescriptor]⟩))⟩

/-- Witness for C2: on the two-component cycle, the walk from `A` has
not returned after recursion depth 9 (and, by the theorem, after any
depth). -/
theorem getAllDependencies_diverges_witness :
    getAllDependencies regCyc 9 descA = none :=
  getAllDependencies_diverges_on_cycle regCyc "A" descA
    regCyc_closed rfl regCyc_cycle 9

end SDE
